import Mathlib

/-!
# Window-event bridge: `phpdesktop-chrome/cef/client_handler.cpp`

A shallow embedding of the callback handlers of `client_handler.cpp` and the
properties of them that the specification states.

Conventions of the embedding.

* All handlers run on the UI thread (`REQUIRE_UI_THREAD()`), one at a time, so
  a handler is a function from the state before it to the state after it
  together with the list of calls it makes on the embedded engine and on the
  window layer (`Effect`), in program order.
* Values the handlers read from the engine, the operating system and the
  settings tree are arguments (`DpiReadings`, `TitleReadings`).
* A `CefString`, `std::string` or `std::wstring` is a Lean `String`; the
  conversions between them (`WideToUtf8`, `Utf8ToWide`, `ToString`) carry the
  text over unchanged.  A string handed over as a pointer (`.c_str()`) is read
  by the callee up to its first U+0000 (`c_str`).
* A C `int` is an `Int`; the only arithmetic on one, `ppix - 96` under the guard
  `ppix > 96`, cannot overflow.  A finite `double` is the rational it denotes.
* `ASSERT` is compiled in or out by the build; the build is the argument
  `assertionsEnabled`, and a failed assertion ends the run (`none`).
-/

namespace PhpDesktop

/-! ## Data model -/

/-- A native window handle (`HWND`); `0` is `NULL`. -/
abbrev HWND := Nat

/-- A reference to a live browser instance (`CefRefPtr<CefBrowser>`): the
identity of the instance the engine compares in `IsSame`, and the window handle
`GetHost()->GetWindowHandle()` returns for it. -/
structure CefBrowser where
  identifier : Nat
  windowHandle : HWND
deriving DecidableEq, Repr

/-- `a->IsSame(b)` of the engine: both references denote the same browser
instance, that is, they carry the same identifier. -/
def CefBrowser.IsSame (a b : CefBrowser) : Bool :=
  a.identifier == b.identifier

/-- `cefBrowser->GetHost()->GetWindowHandle()`. -/
def CefBrowser.GetWindowHandle (b : CefBrowser) : HWND :=
  b.windowHandle

/-- Modelled from the spec: the application window object of the window layer
(`browser_window.h`), as far as the handlers use it: the handle it wraps, the
popup flag given to its constructor, and the attached browser instance
(`GetCefBrowser()`, null when `none`). -/
structure BrowserWindow where
  windowHandle : HWND
  isPopup : Bool
  cefBrowser : Option CefBrowser
deriving DecidableEq, Repr

/-- `new BrowserWindow(handle, isPopup)`: no browser attached yet. -/
def BrowserWindow.new (handle : HWND) (isPopup : Bool) : BrowserWindow :=
  { windowHandle := handle, isPopup := isPopup, cefBrowser := none }

/-- `phpBrowser->SetCefBrowser(cefBrowser)`. -/
def BrowserWindow.SetCefBrowser (w : BrowserWindow) (cefBrowser : CefBrowser) : BrowserWindow :=
  { w with cefBrowser := some cefBrowser }

/-- `phpBrowser->IsPopup()`. -/
def BrowserWindow.IsPopup (w : BrowserWindow) : Bool :=
  w.isPopup

/-- The window-handle to application-window mapping of the window layer. -/
abbrev BrowserWindows := HWND → Option BrowserWindow

/-- Modelled from the spec: `GetBrowserWindow(handle)` of the window layer
(`browser_window.cpp`), "look up an existing application window for that
handle"; `none` is the null pointer. -/
def GetBrowserWindow (m : BrowserWindows) (handle : HWND) : Option BrowserWindow :=
  m handle

/-- Modelled from the spec: `StoreBrowserWindow(handle, window)` of the window
layer, "register it in the handle mapping". -/
def StoreBrowserWindow (m : BrowserWindows) (handle : HWND) (w : BrowserWindow) : BrowserWindows :=
  fun k => if k = handle then some w else m k

/-- Modelled from the spec: `RemoveBrowserWindow(handle)` of the window layer,
"unregister the window from the handle mapping". -/
def RemoveBrowserWindow (m : BrowserWindows) (handle : HWND) : BrowserWindows :=
  fun k => if k = handle then none else m k

/-- The engine threads a task can be posted to. -/
inductive CefThreadId where
  | TID_UI
  | TID_IO
deriving DecidableEq, Repr

/-- A task object: `NewCefRunnableFunction(&SetBrowserDpiSettings, cefBrowser)`. -/
inductive CefTask where
  | RunSetBrowserDpiSettings (cefBrowser : CefBrowser)
deriving DecidableEq, Repr

/-- The calls a handler makes on the engine, the window layer and the log. -/
inductive Effect where
  /-- `LOG_DEBUG << message`. -/
  | LogDebug (message : String)
  /-- `LOG_DEBUG << "DPI, browser zoom level = " << GetZoomLevel()`, with the
  level that `GetZoomLevel()` returned. -/
  | LogDebugZoomLevel (zoomLevel : ℚ)
  /-- `cefBrowser->GetHost()->SetZoomLevel(zoomLevel)`. -/
  | SetZoomLevel (cefBrowser : CefBrowser) (zoomLevel : ℚ)
  /-- `CefPostDelayedTask(threadId, task, delay_ms)`. -/
  | PostDelayedTask (threadId : CefThreadId) (task : CefTask) (delay_ms : Int)
  /-- `window->SetIconFromSettings()` on the window of this handle. -/
  | SetIconFromSettings (handle : HWND)
  /-- `window->SetTitleFromSettings()` on the window of this handle. -/
  | SetTitleFromSettings (handle : HWND)
  /-- `window->SetTitle(title)` on the window of this handle. -/
  | SetTitle (handle : HWND) (title : String)
  /-- `window->SetFocus()` on the window of this handle. -/
  | SetFocus (handle : HWND)
  /-- `CefQuitMessageLoop()`. -/
  | QuitMessageLoop
  /-- `frame->LoadString(content, url)` on the frame with this identifier. -/
  | LoadString (frame : Nat) (content : String) (url : String)
deriving DecidableEq, Repr

/-- The state the handlers keep between calls: the handle mapping of the window
layer, the handler's list of active browsers, and the function-local static of
`SetBrowserDpiSettings`. -/
structure State where
  browserWindows : BrowserWindows
  browser_list_ : List CefBrowser
  already_logged : Bool

/-! ## DPI correction -/

/-- What one run of `SetBrowserDpiSettings` reads from its surroundings. -/
structure DpiReadings where
  /-- `(*appSettings)["application"]["dpi_aware"]` as a boolean. -/
  dpi_aware : Bool
  /-- `GetZoomLevel()` before the zoom level is set (lines 53 and 91). -/
  zoomLevel : ℚ
  /-- `GetDeviceCaps(hdc, LOGPIXELSX)`. -/
  ppix : Int
  /-- `GetDeviceCaps(hdc, LOGPIXELSY)`. -/
  ppiy : Int
  /-- `GetZoomLevel()` after `SetZoomLevel` was called (lines 72 and 76). -/
  zoomLevelAfterSet : ℚ

/-- Lines 54 and 66-68: `double newZoomLevel = 0.0;
if (ppix > 96) newZoomLevel = (ppix - 96) / 24;`.  Both operands of `/` are
`int`, so the quotient is the truncated one, converted to `double` afterwards. -/
def newZoomLevel (ppix : Int) : ℚ :=
  if ppix > 96 then (((ppix - 96).tdiv 24 : Int) : ℚ) else 0

/-- The two log lines `"DPI, ppix = ..."` and `"DPI, browser zoom level = ..."`. -/
def dpiLogLines (ppix ppiy : Int) (zoomLevel : ℚ) : List Effect :=
  [Effect.LogDebug ("DPI, ppix = " ++ toString ppix ++ ", ppiy = " ++ toString ppiy),
   Effect.LogDebugZoomLevel zoomLevel]

/-- `SetBrowserDpiSettings(cefBrowser)` (lines 43-102): the calls it makes and
the new value of its static `already_logged`. -/
def SetBrowserDpiSettings (r : DpiReadings) (already_logged : Bool) (cefBrowser : CefBrowser) :
    List Effect × Bool :=
  if !r.dpi_aware then
    ([], already_logged)
  else
    let oldZoomLevel := r.zoomLevel
    let newZoom := newZoomLevel r.ppix
    let body : List Effect × Bool :=
      if oldZoomLevel ≠ newZoom then
        (Effect.SetZoomLevel cefBrowser newZoom ::
          (if r.zoomLevelAfterSet ≠ oldZoomLevel then
            dpiLogLines r.ppix r.ppiy r.zoomLevelAfterSet
          else []),
         already_logged)
      else
        if !already_logged then
          (dpiLogLines r.ppix r.ppiy r.zoomLevel, true)
        else
          ([], already_logged)
    (body.1 ++
      [Effect.PostDelayedTask CefThreadId.TID_UI (CefTask.RunSetBrowserDpiSettings cefBrowser) 50],
     body.2)

/-- The delayed tasks among the calls of a handler, in order. -/
def postedTasks : List Effect → List (CefThreadId × CefTask × Int)
  | [] => []
  | Effect.PostDelayedTask t k d :: rest => (t, k, d) :: postedTasks rest
  | _ :: rest => postedTasks rest

/-! ## Browser created, browser closing -/

/-- `ClientHandler::OnAfterCreated(cefBrowser)` (lines 104-130).  `none` is the
failed `ASSERT` of line 110 in a build with assertions.  `phpBrowser` is a
pointer into the mapping, so `SetCefBrowser` on it changes the entry it was
found under. -/
def OnAfterCreated (assertionsEnabled : Bool) (r : DpiReadings) (s : State)
    (cefBrowser : CefBrowser) : Option (State × List Effect) :=
  let cefHandle := cefBrowser.GetWindowHandle
  let attached : Option (BrowserWindows × List Effect) :=
    match GetBrowserWindow s.browserWindows cefHandle with
    | some phpBrowser =>
      if assertionsEnabled && phpBrowser.cefBrowser.isSome then
        none
      else if phpBrowser.cefBrowser.isNone then
        some (fun k => if k = cefHandle then some (phpBrowser.SetCefBrowser cefBrowser)
                       else s.browserWindows k,
              [Effect.LogDebug "SetCefBrowser() called in ClientHandler::OnAfterCreated()"])
      else
        some (s.browserWindows, [])
    | none =>
      let phpBrowser := BrowserWindow.new cefHandle true
      some (StoreBrowserWindow s.browserWindows cefHandle (phpBrowser.SetCefBrowser cefBrowser),
            [Effect.SetIconFromSettings cefHandle,
             Effect.SetTitleFromSettings cefHandle,
             Effect.SetFocus cefHandle])
  match attached with
  | none => none
  | some (windows, effects) =>
    let dpi := SetBrowserDpiSettings r s.already_logged cefBrowser
    some ({ browserWindows := windows,
            browser_list_ := s.browser_list_ ++ [cefBrowser],
            already_logged := dpi.2 },
          effects ++ dpi.1)

/-- The loop of lines 138-144: walk `browser_list_` from the front, erase the
first element with `(*bit)->IsSame(browser)` and stop. -/
def eraseFirstSame (browser : CefBrowser) : List CefBrowser → List CefBrowser
  | [] => []
  | bit :: rest =>
    if bit.IsSame browser then rest else bit :: eraseFirstSame browser rest

/-- `ClientHandler::OnBeforeClose(browser)` (lines 132-150). -/
def OnBeforeClose (s : State) (browser : CefBrowser) : State × List Effect :=
  let windows := RemoveBrowserWindow s.browserWindows browser.GetWindowHandle
  let list := eraseFirstSame browser s.browser_list_
  ({ browserWindows := windows, browser_list_ := list, already_logged := s.already_logged },
   if list.isEmpty then [Effect.QuitMessageLoop] else [])

/-- One lifecycle callback, as the engine delivers it: a browser was created
(with what the DPI correction reads at that moment), or a browser is closing. -/
inductive Event where
  | Created (cefBrowser : CefBrowser) (r : DpiReadings)
  | Closing (browser : CefBrowser)

/-- One callback: the state after it and the calls it made. -/
def step (assertionsEnabled : Bool) (s : State) : Event → Option (State × List Effect)
  | Event.Created cefBrowser r => OnAfterCreated assertionsEnabled r s cefBrowser
  | Event.Closing browser => some (OnBeforeClose s browser)

/-- The state after a sequence of callbacks; `none` when an assertion failed. -/
def run (assertionsEnabled : Bool) : State → List Event → Option State
  | s, [] => some s
  | s, e :: rest =>
    match step assertionsEnabled s e with
    | none => none
    | some (s', _) => run assertionsEnabled s' rest

/-- The browsers of the browser-created events, in order. -/
def createdBrowsers : List Event → List CefBrowser
  | [] => []
  | Event.Created cefBrowser _ :: rest => cefBrowser :: createdBrowsers rest
  | Event.Closing _ :: rest => createdBrowsers rest

/-- The browsers of the browser-closing events, in order. -/
def closedBrowsers : List Event → List CefBrowser
  | [] => []
  | Event.Created _ _ :: rest => closedBrowsers rest
  | Event.Closing browser :: rest => browser :: closedBrowsers rest

/-- Every browser-closing event of the sequence closes a browser that is in the
active-browser collection when the event arrives. -/
def closesOnlyPresent (assertionsEnabled : Bool) : State → List Event → Bool
  | _, [] => true
  | s, e :: rest =>
    (match e with
      | Event.Closing browser => s.browser_list_.any (fun bit => bit.IsSame browser)
      | Event.Created _ _ => true) &&
    (match step assertionsEnabled s e with
      | none => true
      | some (s', _) => closesOnlyPresent assertionsEnabled s' rest)

/-! ## Popup request, load error, title change -/

/-- `ClientHandler::OnBeforePopup(...)` (lines 188-212): the returned flag and
the four arguments passed by reference, as they are on return.  The types of
the engine's structures are left open. -/
def OnBeforePopup {Frame Features WindowInfo Client Settings : Type}
    (_browser : CefBrowser) (_frame : Frame) (_target_url _target_frame_name : String)
    (_popupFeatures : Features) (windowInfo : WindowInfo) (client : Client)
    (settings : Settings) (no_javascript_access : Bool) :
    Bool × WindowInfo × Client × Settings × Bool :=
  (false, windowInfo, client, settings, no_javascript_access)

/-- `ss << errorCode`: an `int` written to a stream, in decimal with a leading
minus sign when negative. -/
def streamInt (n : Int) : String :=
  toString n

/-- The text built in the string stream of lines 226-230. -/
def loadErrorPage (errorCode : Int) (errorText failedUrl : String) : String :=
  "<html><body bgcolor=\"white\">" ++
    "<h2>Failed to load URL " ++ failedUrl ++
    " with error " ++ errorText ++ " (" ++ streamInt errorCode ++
    ").</h2></body></html>"

/-- `ClientHandler::OnLoadError(browser, frame, errorCode, errorText,
failedUrl)` (lines 214-232).  The value of the engine's constant `ERR_ABORTED`
is an argument; `frame` is the identifier of the frame. -/
def OnLoadError (ERR_ABORTED : Int) (_browser : CefBrowser) (frame : Nat) (errorCode : Int)
    (errorText failedUrl : String) : List Effect :=
  if errorCode = ERR_ABORTED then
    []
  else
    [Effect.LoadString frame (loadErrorPage errorCode errorText failedUrl) failedUrl]

/-- The search of `std::string::find`: the lowest position at or after `pos`
(the position of the first character of the text given) where `pat` occurs;
`none` is `npos`. -/
def findFrom (pat : List Char) : List Char → Nat → Option Nat
  | [], pos => if pat.isEmpty then some pos else none
  | c :: rest, pos =>
    if pat.isPrefixOf (c :: rest) then some pos else findFrom pat rest (pos + 1)

/-- `s.find(pat)` of `std::string`. -/
def find (s pat : String) : Option Nat :=
  findFrom pat.data s.data 0

/-- `s.c_str()` as the function that receives the pointer reads it: the
characters of `s` before its first U+0000, all of `s` when it holds none. -/
def c_str (s : String) : String :=
  ⟨s.data.takeWhile (fun c => c != Char.ofNat 0)⟩

/-- What `OnTitleChange` reads from the settings, the executable and the
window layer.  The configured title is read out of the settings value through
its character pointer and the name of the executable is a file name, so neither
holds a U+0000: `c_str()` returns them whole. -/
structure TitleReadings where
  /-- `(*appSettings)["web_server"]["listen_on"][0]` as a string. -/
  listen_on_0 : String
  /-- `(*appSettings)["main_window"]["title"]` as a string. -/
  main_window_title : String
  /-- `GetExecutableName()`. -/
  executableName : String
  /-- `window->IsUsingMetaTitle()`. -/
  IsUsingMetaTitle : BrowserWindow → Bool
  /-- The configured title holds no U+0000. -/
  main_window_title_c_str : c_str main_window_title = main_window_title
  /-- The name of the executable holds no U+0000. -/
  executableName_c_str : c_str executableName = executableName

/-- The log line `OnTitleChange` starts with. -/
def titleChangeLog (cefTitle : String) : Effect :=
  Effect.LogDebug ("ClientHandler::OnTitleChange(), title = " ++ cefTitle)

/-- Lines 261-263: the configured main-window title, or the name of the
executable when that is empty. -/
def fallbackTitle (r : TitleReadings) : String :=
  if r.main_window_title = "" then r.executableName else r.main_window_title

/-- `ClientHandler::OnTitleChange(cefBrowser, cefTitle)` (lines 247-272).  Both
calls of `SetTitle` (lines 264 and 266) pass `.c_str()` of the title. -/
def OnTitleChange (r : TitleReadings) (s : State) (cefBrowser : CefBrowser)
    (cefTitle : String) : List Effect :=
  let cefHandle := cefBrowser.GetWindowHandle
  titleChangeLog cefTitle ::
    (match GetBrowserWindow s.browserWindows cefHandle with
      | some browser =>
        if browser.IsPopup then
          if r.IsUsingMetaTitle browser then
            let ipAddress := r.listen_on_0
            if cefTitle = "" ∨ find cefTitle ipAddress = some 0 then
              [Effect.SetTitle browser.windowHandle (c_str (fallbackTitle r))]
            else
              [Effect.SetTitle browser.windowHandle (c_str cefTitle)]
          else
            [Effect.SetTitleFromSettings browser.windowHandle]
        else
          []
      | none => [])

/-! # Properties -/

/-! ## Popup request -/

/-- C1, as stated, fails: for a popup request from browser 1 for
`http://127.0.0.1/popup.html` the handler does not return the cancelling
value `true`. -/
theorem C1_popup_not_cancelled :
    (OnBeforePopup (CefBrowser.mk 1 10) () "http://127.0.0.1/popup.html" "" () () () ()
      false).1 ≠ true := by
  decide

/-- C1, amended: for every popup request (every source browser, frame, target
URL, frame name and popup features) `OnBeforePopup` returns `false`, the value
that by the callback's documented convention allows creation of the popup
window, and hands back `windowInfo`, `client`, `settings` and
`no_javascript_access` as it received them. -/
theorem C1_popup_always_allowed {Frame Features WindowInfo Client Settings : Type}
    (browser : CefBrowser) (frame : Frame) (target_url target_frame_name : String)
    (popupFeatures : Features) (windowInfo : WindowInfo) (client : Client)
    (settings : Settings) (no_javascript_access : Bool) :
    OnBeforePopup browser frame target_url target_frame_name popupFeatures windowInfo client
        settings no_javascript_access
      = (false, windowInfo, client, settings, no_javascript_access) := by
  unfold OnBeforePopup
  rfl

/-! ## DPI correction -/

theorem postedTasks_append (l₁ l₂ : List Effect) :
    postedTasks (l₁ ++ l₂) = postedTasks l₁ ++ postedTasks l₂ := by
  induction l₁ with
  | nil => rfl
  | cons e rest ih => cases e <;> simp [postedTasks, ih]

theorem postedTasks_dpiLogLines (ppix ppiy : Int) (z : ℚ) :
    postedTasks (dpiLogLines ppix ppiy z) = [] := by
  simp [dpiLogLines, postedTasks]

/-- The quotient of line 67 as a floor: for every `ppix` the new zoom level is
the integer `max 0 ((ppix - 96) / 24)`, with the division rounding down. -/
theorem newZoomLevel_eq_floor (ppix : Int) :
    newZoomLevel ppix = ((max 0 ((ppix - 96) / 24) : Int) : ℚ) := by
  unfold newZoomLevel
  split_ifs with h
  · have h1 : (ppix - 96).tdiv 24 = (ppix - 96) / 24 :=
      Int.tdiv_eq_ediv (by omega) (by omega)
    have h2 : max 0 ((ppix - 96) / 24) = (ppix - 96) / 24 := by
      apply max_eq_right
      omega
    rw [h1, h2]
  · have h2 : max 0 ((ppix - 96) / 24) = 0 := by
      apply max_eq_left
      omega
    rw [h2]
    simp

/-- The new zoom level is the exact rational `max 0 ((ppix - 96) / 24)` exactly
when `ppix ≤ 96` or `ppix - 96` is a multiple of 24. -/
theorem newZoomLevel_eq_rational_iff (ppix : Int) :
    newZoomLevel ppix = max 0 (((ppix : ℚ) - 96) / 24) ↔ ppix ≤ 96 ∨ (24 : Int) ∣ ppix - 96 := by
  rw [newZoomLevel_eq_floor]
  by_cases h : ppix ≤ 96
  · have h1 : max 0 ((ppix - 96) / 24) = 0 := by
      apply max_eq_left
      omega
    have h2 : max 0 (((ppix : ℚ) - 96) / 24) = 0 := by
      apply max_eq_left
      have : (ppix : ℚ) ≤ 96 := by exact_mod_cast h
      apply div_nonpos_of_nonpos_of_nonneg <;> linarith
    simp [h1, h2, h]
  · have h1 : max 0 ((ppix - 96) / 24) = (ppix - 96) / 24 := by
      apply max_eq_right
      omega
    have h2 : max 0 (((ppix : ℚ) - 96) / 24) = ((ppix : ℚ) - 96) / 24 := by
      apply max_eq_right
      have : (96 : ℚ) ≤ ppix := by
        have : (96 : Int) ≤ ppix := by omega
        exact_mod_cast this
      apply div_nonneg <;> linarith
    rw [h1, h2]
    constructor
    · intro heq
      right
      have h3 : (((ppix - 96) / 24 : Int) : ℚ) * 24 = (ppix : ℚ) - 96 := by
        rw [heq]
        ring
      have h4 : (ppix - 96) / 24 * 24 = ppix - 96 := by exact_mod_cast h3
      omega
    · rintro (hle | hdvd)
      · exact absurd hle h
      · have h4 : (ppix - 96) / 24 * 24 = ppix - 96 := by omega
        have h3 : (((ppix - 96) / 24 : Int) : ℚ) * 24 = (ppix : ℚ) - 96 := by exact_mod_cast h4
        rw [← h3]
        ring

/-- The calls of one run of the DPI correction with DPI awareness on: the zoom
level is set, to `newZoomLevel ppix`, exactly when that differs from the
current level. -/
theorem setZoomLevel_mem_iff (r : DpiReadings) (already_logged : Bool) (b : CefBrowser)
    (haware : r.dpi_aware = true) (c : CefBrowser) (z : ℚ) :
    Effect.SetZoomLevel c z ∈ (SetBrowserDpiSettings r already_logged b).1 ↔
      c = b ∧ z = newZoomLevel r.ppix ∧ r.zoomLevel ≠ newZoomLevel r.ppix := by
  unfold SetBrowserDpiSettings
  simp only [haware, Bool.not_true, Bool.false_eq_true, if_false]
  by_cases hne : r.zoomLevel = newZoomLevel r.ppix
  · cases already_logged <;> simp [hne, dpiLogLines]
  · by_cases hset : r.zoomLevelAfterSet = r.zoomLevel <;> simp [hne, hset, dpiLogLines]

/-- C2, as stated, fails at `ppix = 108`: the exact rational
`max 0 ((108 - 96) / 24)` is `1/2`, the zoom level the code computes is `0`,
and with a current zoom level of `1/2` the code sets the zoom level to `0`. -/
theorem C2_zoom_not_rational_at_108 :
    newZoomLevel 108 ≠ max 0 ((((108 : Int) : ℚ) - 96) / 24) ∧
    max 0 ((((108 : Int) : ℚ) - 96) / 24) = 1 / 2 ∧
    newZoomLevel 108 = 0 ∧
    Effect.SetZoomLevel (CefBrowser.mk 1 10) 0 ∈
      (SetBrowserDpiSettings
        { dpi_aware := true, zoomLevel := 1 / 2, ppix := 108, ppiy := 108,
          zoomLevelAfterSet := 0 } false (CefBrowser.mk 1 10)).1 := by
  have h0 : newZoomLevel 108 = 0 := by decide
  have hmax : max 0 ((((108 : Int) : ℚ) - 96) / 24) = 1 / 2 := by norm_num
  refine ⟨?_, hmax, h0, ?_⟩
  · rw [h0, hmax]
    norm_num
  · rw [setZoomLevel_mem_iff _ _ _ rfl]
    refine ⟨rfl, h0.symm, ?_⟩
    show (1 / 2 : ℚ) ≠ newZoomLevel 108
    rw [h0]
    norm_num

/-- C2, amended: for every integer pixels-per-inch value `ppix` read for the
browser's window, with DPI awareness enabled, the new zoom level computed by
`SetBrowserDpiSettings` is `max 0 ((ppix - 96) / 24)` with the quotient rounded
down to an integer; it is the exact rational `max 0 ((ppix - 96) / 24)` exactly
when `ppix ≤ 96` or `ppix - 96` is a multiple of 24.  It is the level passed to
`SetZoomLevel`, which is called exactly when it differs from the current level.
For example `ppix = 120` gives 1, `ppix = 144` gives 2 and `ppix = 108` gives 0. -/
theorem C2_zoom_is_integer_quotient (r : DpiReadings) (already_logged : Bool) (b : CefBrowser)
    (haware : r.dpi_aware = true) :
    newZoomLevel r.ppix = ((max 0 ((r.ppix - 96) / 24) : Int) : ℚ) ∧
    (newZoomLevel r.ppix = max 0 (((r.ppix : ℚ) - 96) / 24) ↔
      r.ppix ≤ 96 ∨ (24 : Int) ∣ r.ppix - 96) ∧
    (∀ z, Effect.SetZoomLevel b z ∈ (SetBrowserDpiSettings r already_logged b).1 ↔
      z = newZoomLevel r.ppix ∧ r.zoomLevel ≠ newZoomLevel r.ppix) ∧
    newZoomLevel 120 = 1 ∧ newZoomLevel 144 = 2 ∧ newZoomLevel 108 = 0 := by
  refine ⟨newZoomLevel_eq_floor r.ppix, newZoomLevel_eq_rational_iff r.ppix, ?_,
    by decide, by decide, by decide⟩
  intro z
  rw [setZoomLevel_mem_iff r already_logged b haware]
  simp

/-- C2, at a concrete reading: at 120 pixels per inch and a current zoom level
of 0 the zoom level 1 is computed and set. -/
theorem C2_zoom_is_integer_quotient_witness :
    newZoomLevel 120 = (((max 0 (((120 : Int) - 96) / 24) : Int)) : ℚ) ∧
    Effect.SetZoomLevel (CefBrowser.mk 1 10) 1 ∈
      (SetBrowserDpiSettings
        { dpi_aware := true, zoomLevel := 0, ppix := 120, ppiy := 120,
          zoomLevelAfterSet := 1 } false (CefBrowser.mk 1 10)).1 := by
  have h := C2_zoom_is_integer_quotient
    { dpi_aware := true, zoomLevel := 0, ppix := 120, ppiy := 120, zoomLevelAfterSet := 1 }
    false (CefBrowser.mk 1 10) rfl
  refine ⟨h.1, ?_⟩
  rw [h.2.2.1 1]
  have h1 : newZoomLevel 120 = 1 := by decide
  refine ⟨h1.symm, ?_⟩
  show (0 : ℚ) ≠ newZoomLevel 120
  rw [h1]
  norm_num

/-- C3, as stated, fails: with `dpi_aware` off, one invocation of the DPI
correction posts no further invocation (and makes no call at all). -/
theorem C3_no_reschedule_when_not_dpi_aware :
    (postedTasks (SetBrowserDpiSettings
      { dpi_aware := false, zoomLevel := 0, ppix := 120, ppiy := 120, zoomLevelAfterSet := 0 }
      false (CefBrowser.mk 1 10)).1).length ≠ 1 ∧
    (SetBrowserDpiSettings
      { dpi_aware := false, zoomLevel := 0, ppix := 120, ppiy := 120, zoomLevelAfterSet := 0 }
      false (CefBrowser.mk 1 10)).1 = [] := by
  constructor
  · simp [SetBrowserDpiSettings, postedTasks]
  · simp [SetBrowserDpiSettings]

/-- C3, amended: for every browser, current zoom level and pixel density, one
invocation of the DPI correction with the setting `application.dpi_aware` on
posts exactly one further invocation of itself for the same browser on the UI
queue with a delay of 50 ms; with the setting off it returns at once, posting
nothing and making no call. -/
theorem C3_reschedule_iff_dpi_aware (r : DpiReadings) (already_logged : Bool) (b : CefBrowser) :
    postedTasks (SetBrowserDpiSettings r already_logged b).1 =
      (if r.dpi_aware then [(CefThreadId.TID_UI, CefTask.RunSetBrowserDpiSettings b, 50)]
       else []) ∧
    (r.dpi_aware = false → (SetBrowserDpiSettings r already_logged b).1 = []) := by
  unfold SetBrowserDpiSettings
  cases haware : r.dpi_aware
  · simp [postedTasks]
  · simp only [Bool.not_true, Bool.false_eq_true, if_false, if_true, postedTasks_append]
    refine ⟨?_, by simp⟩
    by_cases hne : r.zoomLevel = newZoomLevel r.ppix
    · cases already_logged <;> simp [hne, postedTasks, dpiLogLines]
    · by_cases hset : r.zoomLevelAfterSet = r.zoomLevel <;>
        simp [hne, hset, postedTasks, dpiLogLines]

/-! ## Browser closing -/

/-- The loop either finds no element that is the same browser and leaves the
list alone, or removes the first such element and nothing else. -/
theorem eraseFirstSame_spec (b : CefBrowser) (l : List CefBrowser) :
    ((∀ x ∈ l, x.IsSame b = false) ∧ eraseFirstSame b l = l) ∨
    (∃ front x back, l = front ++ x :: back ∧ (∀ y ∈ front, y.IsSame b = false) ∧
      x.IsSame b = true ∧ eraseFirstSame b l = front ++ back) := by
  induction l with
  | nil => left; simp [eraseFirstSame]
  | cons a rest ih =>
    cases ha : a.IsSame b
    · rcases ih with ⟨hall, heq⟩ | ⟨front, x, back, hl, hfront, hx, heq⟩
      · left
        refine ⟨?_, by simp [eraseFirstSame, ha, heq]⟩
        intro y hy
        rcases List.mem_cons.mp hy with rfl | hy
        · exact ha
        · exact hall y hy
      · right
        refine ⟨a :: front, x, back, by simp [hl], ?_, hx, by simp [eraseFirstSame, ha, heq]⟩
        intro y hy
        rcases List.mem_cons.mp hy with rfl | hy
        · exact ha
        · exact hfront y hy
    · right
      exact ⟨[], a, rest, rfl, by simp, ha, by simp [eraseFirstSame, ha]⟩

theorem mem_eraseFirstSame_of_not_same (b x : CefBrowser) (l : List CefBrowser)
    (hx : x ∈ l) (hns : x.IsSame b = false) : x ∈ eraseFirstSame b l := by
  induction l with
  | nil => cases hx
  | cons a rest ih =>
    cases ha : a.IsSame b
    · simp only [eraseFirstSame, ha, Bool.false_eq_true, if_false]
      rcases List.mem_cons.mp hx with rfl | hx
      · exact List.mem_cons_self _ _
      · exact List.mem_cons_of_mem _ (ih hx)
    · simp only [eraseFirstSame, ha, if_true]
      rcases List.mem_cons.mp hx with rfl | hx
      · rw [ha] at hns
        cases hns
      · exact hx

theorem length_eraseFirstSame_of_present (b : CefBrowser) (l : List CefBrowser)
    (h : l.any (fun bit => bit.IsSame b) = true) :
    (eraseFirstSame b l).length + 1 = l.length := by
  induction l with
  | nil => simp at h
  | cons a rest ih =>
    cases ha : a.IsSame b
    · simp only [List.any_cons, ha, Bool.false_or] at h
      simp [eraseFirstSame, ha, ih h]
    · simp [eraseFirstSame, ha]

/-- C4: for every active-browser collection `L` and browser `b`, after
`OnBeforeClose(b)` the collection is `L` with the first element that is the
same browser as `b` removed and every other element kept in order (later
elements that are also the same as `b` stay); if no element is the same, the
collection is unchanged.  So the length drops by at most one. -/
theorem C4_close_removes_first_match (s : State) (b : CefBrowser) :
    (((∀ x ∈ s.browser_list_, x.IsSame b = false) ∧
        (OnBeforeClose s b).1.browser_list_ = s.browser_list_) ∨
      (∃ front x back, s.browser_list_ = front ++ x :: back ∧
        (∀ y ∈ front, y.IsSame b = false) ∧ x.IsSame b = true ∧
        (OnBeforeClose s b).1.browser_list_ = front ++ back)) ∧
    (OnBeforeClose s b).1.browser_list_.length ≤ s.browser_list_.length ∧
    s.browser_list_.length ≤ (OnBeforeClose s b).1.browser_list_.length + 1 := by
  have hlist : (OnBeforeClose s b).1.browser_list_ = eraseFirstSame b s.browser_list_ := rfl
  rw [hlist]
  have hspec := eraseFirstSame_spec b s.browser_list_
  refine ⟨hspec, ?_⟩
  rcases hspec with ⟨_, heq⟩ | ⟨front, x, back, hl, _, _, heq⟩
  · rw [heq]
    exact ⟨le_refl _, Nat.le_succ _⟩
  · rw [heq]
    have hlen : s.browser_list_.length = front.length + back.length + 1 := by
      rw [hl]
      simp
      omega
    rw [hlen, List.length_append]
    exact ⟨Nat.le_succ _, le_refl _⟩

/-! ## Browser created -/

theorem OnAfterCreated_browser_list (a : Bool) (r : DpiReadings) (s s' : State)
    (b : CefBrowser) (eff : List Effect) (h : OnAfterCreated a r s b = some (s', eff)) :
    s'.browser_list_ = s.browser_list_ ++ [b] := by
  unfold OnAfterCreated at h
  simp only [GetBrowserWindow] at h
  split at h
  · cases h
  · rename_i windows effects hattached
    simp only [Option.some.injEq, Prod.mk.injEq] at h
    rw [← h.1]

/-- The window found for the handle has no browser attached: the browser is
attached to it, in either build. -/
theorem OnAfterCreated_unattached (a : Bool) (r : DpiReadings) (s : State) (b : CefBrowser)
    (w : BrowserWindow) (hw : GetBrowserWindow s.browserWindows b.GetWindowHandle = some w)
    (hnone : w.cefBrowser = none) :
    OnAfterCreated a r s b = some
      ({ browserWindows := fun k =>
            if k = b.GetWindowHandle then some (w.SetCefBrowser b) else s.browserWindows k,
          browser_list_ := s.browser_list_ ++ [b],
          already_logged := (SetBrowserDpiSettings r s.already_logged b).2 },
        [Effect.LogDebug "SetCefBrowser() called in ClientHandler::OnAfterCreated()"] ++
          (SetBrowserDpiSettings r s.already_logged b).1) := by
  simp only [GetBrowserWindow] at hw
  simp only [OnAfterCreated, GetBrowserWindow, hw, hnone, Option.isSome_none,
    Bool.and_false, Bool.false_eq_true, if_false, Option.isNone_none, if_true]

/-- No window is found for the handle: a popup window is registered for it, in
either build. -/
theorem OnAfterCreated_unregistered (a : Bool) (r : DpiReadings) (s : State) (b : CefBrowser)
    (hnone : GetBrowserWindow s.browserWindows b.GetWindowHandle = none) :
    OnAfterCreated a r s b = some
      ({ browserWindows := StoreBrowserWindow s.browserWindows b.GetWindowHandle
            ((BrowserWindow.new b.GetWindowHandle true).SetCefBrowser b),
          browser_list_ := s.browser_list_ ++ [b],
          already_logged := (SetBrowserDpiSettings r s.already_logged b).2 },
        [Effect.SetIconFromSettings b.GetWindowHandle,
          Effect.SetTitleFromSettings b.GetWindowHandle,
          Effect.SetFocus b.GetWindowHandle] ++
          (SetBrowserDpiSettings r s.already_logged b).1) := by
  simp only [GetBrowserWindow] at hnone
  simp only [OnAfterCreated, GetBrowserWindow, hnone]

/-- The window found for the handle has a browser attached and assertions are
compiled out: neither the window nor the mapping is touched. -/
theorem OnAfterCreated_attached_release (r : DpiReadings) (s : State) (b b0 : CefBrowser)
    (w : BrowserWindow) (hw : GetBrowserWindow s.browserWindows b.GetWindowHandle = some w)
    (hattached : w.cefBrowser = some b0) :
    OnAfterCreated false r s b = some
      ({ browserWindows := s.browserWindows,
          browser_list_ := s.browser_list_ ++ [b],
          already_logged := (SetBrowserDpiSettings r s.already_logged b).2 },
        [] ++ (SetBrowserDpiSettings r s.already_logged b).1) := by
  simp only [GetBrowserWindow] at hw
  simp only [OnAfterCreated, GetBrowserWindow, hw, hattached, Bool.false_and,
    Bool.false_eq_true, if_false, Option.isNone_some]

/-- C6: for every handle mapping `M`, collection `L` and new browser `b` with
window handle `h`: if `M` has a window for `h` with no browser attached,
`OnAfterCreated` attaches `b` to that window and leaves the set of handles of
`M` (and every other entry) unchanged; if `M` has no window for `h`, it
registers a new popup window for `h` with `b` attached and leaves the entries
of all other handles unchanged.  In both cases the collection afterwards is
`L` with `b` appended at the end. -/
theorem C6_created_attaches_or_registers (assertionsEnabled : Bool) (r : DpiReadings)
    (s : State) (b : CefBrowser) :
    (∀ w, GetBrowserWindow s.browserWindows b.GetWindowHandle = some w → w.cefBrowser = none →
      ∃ s' eff, OnAfterCreated assertionsEnabled r s b = some (s', eff) ∧
        GetBrowserWindow s'.browserWindows b.GetWindowHandle
          = some { w with cefBrowser := some b } ∧
        (∀ k, (GetBrowserWindow s'.browserWindows k).isSome
          = (GetBrowserWindow s.browserWindows k).isSome) ∧
        (∀ k, k ≠ b.GetWindowHandle →
          GetBrowserWindow s'.browserWindows k = GetBrowserWindow s.browserWindows k) ∧
        s'.browser_list_ = s.browser_list_ ++ [b] ∧
        s'.browser_list_.length = s.browser_list_.length + 1) ∧
    (GetBrowserWindow s.browserWindows b.GetWindowHandle = none →
      ∃ s' eff, OnAfterCreated assertionsEnabled r s b = some (s', eff) ∧
        GetBrowserWindow s'.browserWindows b.GetWindowHandle
          = some { windowHandle := b.GetWindowHandle, isPopup := true, cefBrowser := some b } ∧
        (∀ k, k ≠ b.GetWindowHandle →
          GetBrowserWindow s'.browserWindows k = GetBrowserWindow s.browserWindows k) ∧
        s'.browser_list_ = s.browser_list_ ++ [b] ∧
        s'.browser_list_.length = s.browser_list_.length + 1) := by
  constructor
  · intro w hw hnone
    have hres := OnAfterCreated_unattached assertionsEnabled r s b w hw hnone
    simp only [GetBrowserWindow] at hw
    refine ⟨_, _, hres, ?_⟩
    refine ⟨by simp [GetBrowserWindow, BrowserWindow.SetCefBrowser], ?_, ?_, rfl, by simp⟩
    · intro k
      by_cases hk : k = b.GetWindowHandle
      · simp [GetBrowserWindow, hk, hw]
      · simp [GetBrowserWindow, hk]
    · intro k hk
      simp [GetBrowserWindow, hk]
  · intro hnone
    have hres := OnAfterCreated_unregistered assertionsEnabled r s b hnone
    simp only [GetBrowserWindow] at hnone
    refine ⟨_, _, hres, ?_⟩
    refine ⟨by simp [GetBrowserWindow, StoreBrowserWindow, BrowserWindow.SetCefBrowser,
      BrowserWindow.new], ?_, rfl, by simp⟩
    intro k hk
    simp [GetBrowserWindow, StoreBrowserWindow, hk]

/-- C9: in a build without assertions, when the window found for the handle of
the new browser already has a browser `b0` attached, `OnAfterCreated(b)` leaves
that window with `b0` attached and the handle mapping unchanged, and still
appends `b` to the active-browser collection. -/
theorem C9_double_attach_ignored (r : DpiReadings) (s : State) (b b0 : CefBrowser)
    (w : BrowserWindow)
    (hw : GetBrowserWindow s.browserWindows b.GetWindowHandle = some w)
    (hattached : w.cefBrowser = some b0) :
    ∃ s' eff, OnAfterCreated false r s b = some (s', eff) ∧
      GetBrowserWindow s'.browserWindows b.GetWindowHandle = some w ∧
      (∀ w', GetBrowserWindow s'.browserWindows b.GetWindowHandle = some w' →
        w'.cefBrowser = some b0) ∧
      s'.browserWindows = s.browserWindows ∧
      s'.browser_list_ = s.browser_list_ ++ [b] := by
  have hres := OnAfterCreated_attached_release r s b b0 w hw hattached
  simp only [GetBrowserWindow] at hw
  refine ⟨_, _, hres, ?_⟩
  refine ⟨by simp [GetBrowserWindow, hw], ?_, rfl, rfl⟩
  intro w' hw'
  simp only [GetBrowserWindow, hw, Option.some.injEq] at hw'
  rw [← hw']
  exact hattached

/-- C6, at concrete inputs: browser 1 is created for handle 10, first over a
mapping that holds an unattached main window for handle 10, then over a
mapping without a window for that handle. -/
theorem C6_created_attaches_or_registers_witness :
    (∃ s' eff,
      OnAfterCreated true
        { dpi_aware := true, zoomLevel := 0, ppix := 120, ppiy := 120, zoomLevelAfterSet := 1 }
        { browserWindows := fun k => if k = 10 then some (BrowserWindow.new 10 false) else none,
          browser_list_ := [], already_logged := false }
        (CefBrowser.mk 1 10) = some (s', eff) ∧
      GetBrowserWindow s'.browserWindows 10
        = some { windowHandle := 10, isPopup := false, cefBrowser := some (CefBrowser.mk 1 10) } ∧
      s'.browser_list_ = [CefBrowser.mk 1 10]) ∧
    (∃ s' eff,
      OnAfterCreated true
        { dpi_aware := true, zoomLevel := 0, ppix := 120, ppiy := 120, zoomLevelAfterSet := 1 }
        { browserWindows := fun k => if k = 10 then some (BrowserWindow.new 10 false) else none,
          browser_list_ := [CefBrowser.mk 1 10], already_logged := false }
        (CefBrowser.mk 2 20) = some (s', eff) ∧
      GetBrowserWindow s'.browserWindows 20
        = some { windowHandle := 20, isPopup := true, cefBrowser := some (CefBrowser.mk 2 20) } ∧
      GetBrowserWindow s'.browserWindows 10 = some (BrowserWindow.new 10 false) ∧
      s'.browser_list_ = [CefBrowser.mk 1 10, CefBrowser.mk 2 20]) := by
  constructor
  · obtain ⟨s', eff, h, hw, _, _, hl, _⟩ :=
      (C6_created_attaches_or_registers true
        { dpi_aware := true, zoomLevel := 0, ppix := 120, ppiy := 120, zoomLevelAfterSet := 1 }
        { browserWindows := fun k => if k = 10 then some (BrowserWindow.new 10 false) else none,
          browser_list_ := [], already_logged := false }
        (CefBrowser.mk 1 10)).1 (BrowserWindow.new 10 false) rfl rfl
    exact ⟨s', eff, h, hw, hl⟩
  · obtain ⟨s', eff, h, hw, hother, hl, _⟩ :=
      (C6_created_attaches_or_registers true
        { dpi_aware := true, zoomLevel := 0, ppix := 120, ppiy := 120, zoomLevelAfterSet := 1 }
        { browserWindows := fun k => if k = 10 then some (BrowserWindow.new 10 false) else none,
          browser_list_ := [CefBrowser.mk 1 10], already_logged := false }
        (CefBrowser.mk 2 20)).2 rfl
    exact ⟨s', eff, h, hw, hother 10 (by decide), hl⟩

/-- C9, at a concrete input: the main window of handle 10 has browser 1
attached and browser 2 is created for the same handle. -/
theorem C9_double_attach_ignored_witness :
    ∃ s' eff,
      OnAfterCreated false
        { dpi_aware := false, zoomLevel := 0, ppix := 96, ppiy := 96, zoomLevelAfterSet := 0 }
        { browserWindows := fun k =>
            if k = 10 then some { windowHandle := 10, isPopup := false,
                                  cefBrowser := some (CefBrowser.mk 1 10) }
            else none,
          browser_list_ := [CefBrowser.mk 1 10], already_logged := false }
        (CefBrowser.mk 2 10) = some (s', eff) ∧
      GetBrowserWindow s'.browserWindows 10
        = some { windowHandle := 10, isPopup := false, cefBrowser := some (CefBrowser.mk 1 10) } ∧
      s'.browser_list_ = [CefBrowser.mk 1 10, CefBrowser.mk 2 10] := by
  obtain ⟨s', eff, h, hw, _, _, hl⟩ :=
    C9_double_attach_ignored
      { dpi_aware := false, zoomLevel := 0, ppix := 96, ppiy := 96, zoomLevelAfterSet := 0 }
      { browserWindows := fun k =>
          if k = 10 then some { windowHandle := 10, isPopup := false,
                                cefBrowser := some (CefBrowser.mk 1 10) }
          else none,
        browser_list_ := [CefBrowser.mk 1 10], already_logged := false }
      (CefBrowser.mk 2 10) (CefBrowser.mk 1 10)
      { windowHandle := 10, isPopup := false, cefBrowser := some (CefBrowser.mk 1 10) }
      rfl rfl
  exact ⟨s', eff, h, hw, hl⟩

/-- With assertions compiled in, the double attach of C9 ends the run. -/
theorem OnAfterCreated_double_attach_asserts (r : DpiReadings) (s : State) (b b0 : CefBrowser)
    (w : BrowserWindow)
    (hw : GetBrowserWindow s.browserWindows b.GetWindowHandle = some w)
    (hattached : w.cefBrowser = some b0) :
    OnAfterCreated true r s b = none := by
  simp only [GetBrowserWindow] at hw
  simp only [OnAfterCreated, GetBrowserWindow, hw, hattached, Option.isSome_some,
    Bool.and_self, if_true]

/-- Without assertions `OnAfterCreated` always returns. -/
theorem OnAfterCreated_release_total (r : DpiReadings) (s : State) (b : CefBrowser) :
    ∃ s' eff, OnAfterCreated false r s b = some (s', eff) := by
  cases hw : GetBrowserWindow s.browserWindows b.GetWindowHandle with
  | none => exact ⟨_, _, OnAfterCreated_unregistered false r s b hw⟩
  | some w =>
    cases hb : w.cefBrowser with
    | none => exact ⟨_, _, OnAfterCreated_unattached false r s b w hw hb⟩
    | some b0 => exact ⟨_, _, OnAfterCreated_attached_release r s b b0 w hw hb⟩


/-! ## Closing the last window -/

/-- Without assertions a sequence of callbacks always runs to its end. -/
theorem run_release_total (evs : List Event) (s : State) :
    ∃ s', run false s evs = some s' := by
  induction evs generalizing s with
  | nil => exact ⟨s, rfl⟩
  | cons e rest ih =>
    cases e with
    | Created b r =>
      obtain ⟨s1, eff, h⟩ := OnAfterCreated_release_total r s b
      obtain ⟨s2, h2⟩ := ih s1
      exact ⟨s2, by simp only [run, step, h, h2]⟩
    | Closing b =>
      obtain ⟨s2, h2⟩ := ih (OnBeforeClose s b).1
      exact ⟨s2, by simp only [run, step, h2]⟩

theorem createdBrowsers_append (l₁ l₂ : List Event) :
    createdBrowsers (l₁ ++ l₂) = createdBrowsers l₁ ++ createdBrowsers l₂ := by
  induction l₁ with
  | nil => rfl
  | cons e rest ih => cases e <;> simp [createdBrowsers, ih]

theorem closedBrowsers_append (l₁ l₂ : List Event) :
    closedBrowsers (l₁ ++ l₂) = closedBrowsers l₁ ++ closedBrowsers l₂ := by
  induction l₁ with
  | nil => rfl
  | cons e rest ih => cases e <;> simp [closedBrowsers, ih]

/-- The hypothesis on the closing events of a sequence splits at any point the
run reaches. -/
theorem closesOnlyPresent_append (a : Bool) (front back : List Event) (s0 s : State)
    (hrun : run a s0 front = some s)
    (h : closesOnlyPresent a s0 (front ++ back) = true) :
    closesOnlyPresent a s0 front = true ∧ closesOnlyPresent a s back = true := by
  induction front generalizing s0 with
  | nil =>
    simp only [run, Option.some.injEq] at hrun
    subst hrun
    exact ⟨rfl, h⟩
  | cons e rest ih =>
    simp only [run] at hrun
    simp only [List.cons_append, closesOnlyPresent, Bool.and_eq_true] at h ⊢
    cases hstep : step a s0 e with
    | none => simp [hstep] at hrun
    | some p =>
      obtain ⟨s1, eff⟩ := p
      simp only [hstep] at hrun h ⊢
      obtain ⟨h1, h2⟩ := ih s1 hrun h.2
      exact ⟨⟨h.1, h1⟩, h2⟩

/-- Along a run whose closing events close present browsers only, the length of
the collection is its length at the start plus the creations minus the closes. -/
theorem run_length (a : Bool) (evs : List Event) (s0 s : State)
    (hrun : run a s0 evs = some s) (hpresent : closesOnlyPresent a s0 evs = true) :
    s.browser_list_.length + (closedBrowsers evs).length
      = s0.browser_list_.length + (createdBrowsers evs).length := by
  induction evs generalizing s0 with
  | nil =>
    simp only [run, Option.some.injEq] at hrun
    subst hrun
    rfl
  | cons e rest ih =>
    simp only [run] at hrun
    simp only [closesOnlyPresent, Bool.and_eq_true] at hpresent
    cases hstep : step a s0 e with
    | none => simp [hstep] at hrun
    | some p =>
      obtain ⟨s1, eff⟩ := p
      simp only [hstep] at hrun hpresent
      have ih1 := ih s1 hrun hpresent.2
      cases e with
      | Created b r =>
        have hl := OnAfterCreated_browser_list a r s0 s1 b eff hstep
        simp only [createdBrowsers, closedBrowsers, List.length_cons]
        rw [ih1, hl]
        simp
        omega
      | Closing b =>
        simp only [step, Option.some.injEq, Prod.mk.injEq] at hstep
        have hl : s1.browser_list_ = eraseFirstSame b s0.browser_list_ := by
          have h1 : (OnBeforeClose s0 b).1 = s1 := by rw [hstep]
          rw [← h1]
          rfl
        have hlen := length_eraseFirstSame_of_present b s0.browser_list_ hpresent.1
        simp only [createdBrowsers, closedBrowsers, List.length_cons]
        rw [hl] at ih1
        omega

/-- A browser that was created, or was in the collection at the start, and that
no closing event of the run is the same as, is in the collection at the end. -/
theorem run_keeps_open (a : Bool) (evs : List Event) (s0 s : State) (c : CefBrowser)
    (hrun : run a s0 evs = some s)
    (hc : c ∈ s0.browser_list_ ∨ c ∈ createdBrowsers evs)
    (hopen : ∀ d ∈ closedBrowsers evs, c.IsSame d = false) :
    c ∈ s.browser_list_ := by
  induction evs generalizing s0 with
  | nil =>
    simp only [run, Option.some.injEq] at hrun
    subst hrun
    rcases hc with hc | hc
    · exact hc
    · cases hc
  | cons e rest ih =>
    simp only [run] at hrun
    cases hstep : step a s0 e with
    | none => simp [hstep] at hrun
    | some p =>
      obtain ⟨s1, eff⟩ := p
      simp only [hstep] at hrun
      cases e with
      | Created b r =>
        have hl := OnAfterCreated_browser_list a r s0 s1 b eff hstep
        simp only [createdBrowsers, List.mem_cons] at hc
        simp only [closedBrowsers] at hopen
        apply ih s1 hrun _ hopen
        rcases hc with hc | hc | hc
        · left
          rw [hl]
          exact List.mem_append_left _ hc
        · left
          rw [hl, hc]
          simp
        · right
          exact hc
      | Closing b =>
        simp only [step, Option.some.injEq, Prod.mk.injEq] at hstep
        have hl : s1.browser_list_ = eraseFirstSame b s0.browser_list_ := by
          have h1 : (OnBeforeClose s0 b).1 = s1 := by rw [hstep]
          rw [← h1]
          rfl
        simp only [createdBrowsers] at hc
        simp only [closedBrowsers, List.mem_cons, forall_eq_or_imp] at hopen
        apply ih s1 hrun _ hopen.2
        rcases hc with hc | hc
        · left
          rw [hl]
          exact mem_eraseFirstSame_of_not_same b c s0.browser_list_ hc hopen.1
        · right
          exact hc

/-- A run followed by one more closing event. -/
theorem run_append_closing (a : Bool) (front : List Event) (s0 s : State) (browser : CefBrowser)
    (hrun : run a s0 front = some s) :
    run a s0 (front ++ [Event.Closing browser]) = some (OnBeforeClose s browser).1 := by
  induction front generalizing s0 with
  | nil =>
    simp only [run, Option.some.injEq] at hrun
    subst hrun
    rfl
  | cons e rest ih =>
    simp only [run] at hrun
    cases hstep : step a s0 e with
    | none => simp [hstep] at hrun
    | some p =>
      obtain ⟨s1, eff⟩ := p
      simp only [hstep] at hrun
      simp only [List.cons_append, run, hstep]
      exact ih s1 hrun

/-- C5: closing the last window ends the process loop.  For every sequence of
browser-created and browser-closing events that starts from the empty
collection, uses pairwise distinct browsers and only closes browsers that are in
the collection, each browser-closing event of it that the run reaches (the
events before it are `front`, those after it `back`) signals the event loop to
quit (`CefQuitMessageLoop`) if and only if the collection is empty after it,
which is exactly when the closes so far equal the creations so far; no quit is
signalled while a created, not yet closed browser remains. -/
theorem C5_quit_iff_last_window_closed (assertionsEnabled : Bool) (s0 s : State)
    (front back : List Event) (browser : CefBrowser)
    (hempty : s0.browser_list_ = [])
    (_hdistinct : (createdBrowsers (front ++ Event.Closing browser :: back)).Pairwise
      (fun x y => x.IsSame y = false))
    (hpresent : closesOnlyPresent assertionsEnabled s0
      (front ++ Event.Closing browser :: back) = true)
    (hrun : run assertionsEnabled s0 front = some s) :
    (Effect.QuitMessageLoop ∈ (OnBeforeClose s browser).2 ↔
      (OnBeforeClose s browser).1.browser_list_ = []) ∧
    ((OnBeforeClose s browser).1.browser_list_ = [] ↔
      (closedBrowsers (front ++ [Event.Closing browser])).length
        = (createdBrowsers (front ++ [Event.Closing browser])).length) ∧
    (∀ c ∈ createdBrowsers front,
      (∀ d ∈ closedBrowsers (front ++ [Event.Closing browser]), c.IsSame d = false) →
      Effect.QuitMessageLoop ∉ (OnBeforeClose s browser).2) := by
  have hquit : Effect.QuitMessageLoop ∈ (OnBeforeClose s browser).2 ↔
      (OnBeforeClose s browser).1.browser_list_ = [] := by
    simp only [OnBeforeClose]
    cases h : eraseFirstSame browser s.browser_list_ <;> simp
  have hrun' := run_append_closing assertionsEnabled front s0 s browser hrun
  have hsplit : front ++ Event.Closing browser :: back
      = (front ++ [Event.Closing browser]) ++ back := by simp
  rw [hsplit] at hpresent
  have hpresent' := (closesOnlyPresent_append assertionsEnabled _ back s0 _ hrun' hpresent).1
  have hlen := run_length assertionsEnabled _ s0 _ hrun' hpresent'
  rw [hempty] at hlen
  refine ⟨hquit, ?_, ?_⟩
  · rw [← List.length_eq_zero]
    simp only [List.length_nil, Nat.zero_add] at hlen
    omega
  · intro c hc hopen
    rw [hquit]
    have hmem := run_keeps_open assertionsEnabled _ s0 _ c hrun'
      (Or.inr (by rw [createdBrowsers_append]; exact List.mem_append_left _ hc)) hopen
    intro hnil
    rw [hnil] at hmem
    cases hmem

/-- C5, on a concrete run: browsers 1 and 2 are created, browser 1 is closed,
then browser 2, then browser 3 is created: closing browser 2 signals the quit
and empties the collection. -/
theorem C5_quit_iff_last_window_closed_witness :
    ∃ s, run true ⟨fun _ => none, [], false⟩
        [Event.Created (CefBrowser.mk 1 10) ⟨true, 0, 120, 120, 1⟩,
         Event.Created (CefBrowser.mk 2 20) ⟨true, 0, 120, 120, 1⟩,
         Event.Closing (CefBrowser.mk 1 10)] = some s ∧
      Effect.QuitMessageLoop ∈ (OnBeforeClose s (CefBrowser.mk 2 20)).2 ∧
      (OnBeforeClose s (CefBrowser.mk 2 20)).1.browser_list_ = [] := by
  have hrun : run true ⟨fun _ => none, [], false⟩
      [Event.Created (CefBrowser.mk 1 10) ⟨true, 0, 120, 120, 1⟩,
       Event.Created (CefBrowser.mk 2 20) ⟨true, 0, 120, 120, 1⟩,
       Event.Closing (CefBrowser.mk 1 10)] = some _ := rfl
  have h := C5_quit_iff_last_window_closed true ⟨fun _ => none, [], false⟩ _
    [Event.Created (CefBrowser.mk 1 10) ⟨true, 0, 120, 120, 1⟩,
     Event.Created (CefBrowser.mk 2 20) ⟨true, 0, 120, 120, 1⟩,
     Event.Closing (CefBrowser.mk 1 10)]
    [Event.Created (CefBrowser.mk 3 30) ⟨false, 0, 96, 96, 0⟩]
    (CefBrowser.mk 2 20) rfl (by decide) (by decide) hrun
  have hlen : (closedBrowsers
      ([Event.Created (CefBrowser.mk 1 10) ⟨true, 0, 120, 120, 1⟩,
        Event.Created (CefBrowser.mk 2 20) ⟨true, 0, 120, 120, 1⟩,
        Event.Closing (CefBrowser.mk 1 10)] ++ [Event.Closing (CefBrowser.mk 2 20)])).length
      = (createdBrowsers
      ([Event.Created (CefBrowser.mk 1 10) ⟨true, 0, 120, 120, 1⟩,
        Event.Created (CefBrowser.mk 2 20) ⟨true, 0, 120, 120, 1⟩,
        Event.Closing (CefBrowser.mk 1 10)] ++ [Event.Closing (CefBrowser.mk 2 20)])).length := rfl
  exact ⟨_, hrun, h.1.mpr (h.2.1.mpr hlen), h.2.1.mpr hlen⟩


/-! ## Load error -/

/-- C8: for every load error (code `c`, text `e`, failed URL `u`),
`OnLoadError` replaces the frame content if and only if `c` is not
`ERR_ABORTED`: for `ERR_ABORTED` nothing is loaded, otherwise exactly one
document is loaded, for URL `u`, with the text
`<html><body bgcolor="white"><h2>Failed to load URL u with error e (c).</h2></body></html>`
where `c` is written in decimal; the text embeds `u`, `e` and the decimal
code. -/
theorem C8_load_error_page (ERR_ABORTED : Int) (browser : CefBrowser) (frame : Nat) (c : Int)
    (e u : String) :
    (OnLoadError ERR_ABORTED browser frame c e u ≠ [] ↔ c ≠ ERR_ABORTED) ∧
    (c = ERR_ABORTED → OnLoadError ERR_ABORTED browser frame c e u = []) ∧
    (c ≠ ERR_ABORTED → OnLoadError ERR_ABORTED browser frame c e u =
      [Effect.LoadString frame
        ("<html><body bgcolor=\"white\"><h2>Failed to load URL " ++ u ++ " with error " ++ e ++
          " (" ++ toString c ++ ").</h2></body></html>") u]) ∧
    u.data <:+: (loadErrorPage c e u).data ∧
    e.data <:+: (loadErrorPage c e u).data ∧
    (toString c).data <:+: (loadErrorPage c e u).data := by
  refine ⟨?_, ?_, ?_, ?_, ?_, ?_⟩
  · by_cases h : c = ERR_ABORTED <;> simp [OnLoadError, h]
  · intro h
    simp [OnLoadError, h]
  · intro h
    simp only [OnLoadError, h, if_false, loadErrorPage, streamInt]
    rfl
  · exact ⟨("<html><body bgcolor=\"white\">" ++ "<h2>Failed to load URL ").data,
      (" with error " ++ e ++ " (" ++ streamInt c ++ ").</h2></body></html>").data,
      by simp only [loadErrorPage, String.data_append, List.append_assoc]⟩
  · exact ⟨("<html><body bgcolor=\"white\">" ++ "<h2>Failed to load URL " ++ u ++
        " with error ").data,
      (" (" ++ streamInt c ++ ").</h2></body></html>").data,
      by simp only [loadErrorPage, String.data_append, List.append_assoc]⟩
  · exact ⟨("<html><body bgcolor=\"white\">" ++ "<h2>Failed to load URL " ++ u ++
        " with error " ++ e ++ " (").data,
      (").</h2></body></html>" : String).data,
      by simp only [loadErrorPage, streamInt, String.data_append, List.append_assoc]⟩

/-- C8, on concrete errors: with `ERR_ABORTED = -3`, an aborted load leaves the
frame alone, and a failed name lookup (code -105) loads the error page. -/
theorem C8_load_error_page_witness :
    OnLoadError (-3) (CefBrowser.mk 1 10) 0 (-3) "ERR_ABORTED" "http://127.0.0.1/a.zip" = [] ∧
    OnLoadError (-3) (CefBrowser.mk 1 10) 0 (-105) "ERR_NAME_NOT_RESOLVED" "http://nowhere/" =
      [Effect.LoadString 0
        ("<html><body bgcolor=\"white\"><h2>Failed to load URL http://nowhere/ with error " ++
          "ERR_NAME_NOT_RESOLVED (-105).</h2></body></html>") "http://nowhere/"] := by
  refine ⟨(C8_load_error_page (-3) (CefBrowser.mk 1 10) 0 (-3) "ERR_ABORTED"
      "http://127.0.0.1/a.zip").2.1 rfl, ?_⟩
  rw [(C8_load_error_page (-3) (CefBrowser.mk 1 10) 0 (-105) "ERR_NAME_NOT_RESOLVED"
      "http://nowhere/").2.2.1 (by decide)]
  decide

/-! ## Title change -/

theorem findFrom_ge (pat : List Char) (l : List Char) (pos q : Nat)
    (h : findFrom pat l pos = some q) : pos ≤ q := by
  induction l generalizing pos with
  | nil =>
    simp only [findFrom] at h
    split_ifs at h
    simp only [Option.some.injEq] at h
    omega
  | cons c rest ih =>
    simp only [findFrom] at h
    split_ifs at h
    · simp only [Option.some.injEq] at h
      omega
    · have := ih (pos + 1) h
      omega

/-- The search finds the pattern at the position it starts from exactly when
the pattern is a prefix of the text. -/
theorem findFrom_eq_start_iff (pat : List Char) (l : List Char) (pos : Nat) :
    findFrom pat l pos = some pos ↔ pat <+: l := by
  cases l with
  | nil =>
    simp only [findFrom, List.prefix_nil]
    cases pat <;> simp
  | cons c rest =>
    simp only [findFrom]
    by_cases hp : pat.isPrefixOf (c :: rest) = true
    · simp only [hp, if_true, true_iff]
      exact List.isPrefixOf_iff_prefix.mp hp
    · simp only [hp, Bool.false_eq_true, if_false]
      constructor
      · intro h
        have := findFrom_ge pat rest (pos + 1) pos h
        omega
      · intro h
        exact absurd (List.isPrefixOf_iff_prefix.mpr h) hp

/-- The test `title.find(ipAddress) == 0` holds exactly when the title begins
with the address. -/
theorem find_eq_zero_iff (s pat : String) : find s pat = some 0 ↔ pat.data <+: s.data :=
  findFrom_eq_start_iff pat.data s.data 0

/-- A string without a U+0000 is passed whole. -/
theorem c_str_eq_self (s : String) (h : ∀ c ∈ s.data, c ≠ Char.ofNat 0) : c_str s = s := by
  have hd : s.data.takeWhile (fun c => c != Char.ofNat 0) = s.data := by
    rw [List.takeWhile_eq_self_iff]
    intro c hc
    simpa using h c hc
  unfold c_str
  rw [hd]

/-- The string passed holds no U+0000. -/
theorem c_str_no_nul (s : String) : ∀ c ∈ (c_str s).data, c ≠ Char.ofNat 0 := by
  intro c hc
  have := List.mem_takeWhile_imp hc
  simpa using this

/-- The string passed is the beginning of the string. -/
theorem c_str_prefix (s : String) : (c_str s).data <+: s.data :=
  List.takeWhile_prefix _

/-- The fallback title is passed whole. -/
theorem c_str_fallbackTitle (r : TitleReadings) : c_str (fallbackTitle r) = fallbackTitle r := by
  unfold fallbackTitle
  split_ifs
  · exact r.executableName_c_str
  · exact r.main_window_title_c_str

/-- The calls of `OnTitleChange` for a registered popup window that mirrors the
page title. -/
theorem OnTitleChange_meta (r : TitleReadings) (s : State) (b : CefBrowser) (w : BrowserWindow)
    (t : String)
    (hw : GetBrowserWindow s.browserWindows b.GetWindowHandle = some w)
    (hpopup : w.IsPopup = true) (hmeta : r.IsUsingMetaTitle w = true) :
    OnTitleChange r s b t =
      [titleChangeLog t,
        Effect.SetTitle w.windowHandle
          (if t = "" ∨ r.listen_on_0.data <+: t.data then fallbackTitle r else c_str t)] := by
  simp only [OnTitleChange, hw, hpopup, hmeta, if_true, find_eq_zero_iff, c_str_fallbackTitle]
  split_ifs <;> rfl

/-- C7, as stated, fails: for the mirroring popup window of handle 20 and the
page title `ab`, U+0000, `cd` (not empty, not beginning with the server address
`127.0.0.1`) the title set is `ab`, not the title passed. -/
theorem C7_title_cut_at_nul :
    OnTitleChange ⟨"127.0.0.1", "PHP Desktop", "phpdesktop-chrome", fun _ => true, rfl, rfl⟩
        ⟨fun k => if k = 20 then some ⟨20, true, some (CefBrowser.mk 2 20)⟩ else none,
          [CefBrowser.mk 2 20], false⟩
        (CefBrowser.mk 2 20) "ab\x00cd"
      = [titleChangeLog "ab\x00cd", Effect.SetTitle 20 "ab"] ∧
    OnTitleChange ⟨"127.0.0.1", "PHP Desktop", "phpdesktop-chrome", fun _ => true, rfl, rfl⟩
        ⟨fun k => if k = 20 then some ⟨20, true, some (CefBrowser.mk 2 20)⟩ else none,
          [CefBrowser.mk 2 20], false⟩
        (CefBrowser.mk 2 20) "ab\x00cd"
      ≠ [titleChangeLog "ab\x00cd", Effect.SetTitle 20 "ab\x00cd"] ∧
    ¬ ("ab\x00cd" = "" ∨ ("127.0.0.1" : String).data <+: ("ab\x00cd" : String).data) := by
  refine ⟨by decide, by decide, by decide⟩

/-- C7, amended: for every registered popup window and every new title `t`
passed to `OnTitleChange`: if the window mirrors the page title, then when `t`
is empty or begins with the configured server address
(`web_server.listen_on[0]`) the title set is the configured
`main_window.title`, or the name of the executable if that setting is empty,
and otherwise the title set is `t` up to its first U+0000, which is exactly
`t` when `t` holds no U+0000 (the title is handed to `SetTitle` as a
NUL-terminated string); if the window does not mirror the page title, the
statically configured title is re-applied (`SetTitleFromSettings`) whatever `t`
is. -/
theorem C7_title_change (r : TitleReadings) (s : State) (b : CefBrowser) (w : BrowserWindow)
    (t : String)
    (hw : GetBrowserWindow s.browserWindows b.GetWindowHandle = some w)
    (hpopup : w.IsPopup = true) :
    (r.IsUsingMetaTitle w = true → (t = "" ∨ r.listen_on_0.data <+: t.data) →
      OnTitleChange r s b t =
        [titleChangeLog t,
          Effect.SetTitle w.windowHandle
            (if r.main_window_title = "" then r.executableName else r.main_window_title)]) ∧
    (r.IsUsingMetaTitle w = true → ¬ (t = "" ∨ r.listen_on_0.data <+: t.data) →
      OnTitleChange r s b t = [titleChangeLog t, Effect.SetTitle w.windowHandle (c_str t)] ∧
      (c_str t).data = t.data.takeWhile (fun c => c != Char.ofNat 0) ∧
      ((∀ c ∈ t.data, c ≠ Char.ofNat 0) →
        OnTitleChange r s b t = [titleChangeLog t, Effect.SetTitle w.windowHandle t])) ∧
    (r.IsUsingMetaTitle w = false →
      OnTitleChange r s b t = [titleChangeLog t, Effect.SetTitleFromSettings w.windowHandle]) := by
  refine ⟨?_, ?_, ?_⟩
  · intro hmeta ht
    rw [OnTitleChange_meta r s b w t hw hpopup hmeta, if_pos ht]
    rfl
  · intro hmeta ht
    rw [OnTitleChange_meta r s b w t hw hpopup hmeta, if_neg ht]
    refine ⟨rfl, rfl, ?_⟩
    intro hnul
    rw [c_str_eq_self t hnul]
  · intro hmeta
    simp only [OnTitleChange, hw, hpopup, hmeta, if_true, Bool.false_eq_true, if_false]

/-- C10: when the configured server address (`web_server.listen_on[0]`) is the
empty string, `OnTitleChange` on a popup window that mirrors the page title
never uses the page title: for every title `t`, empty or not, the title set is
the main-window title, or the name of the executable if that is empty. -/
theorem C10_empty_address_hides_page_title (r : TitleReadings) (s : State) (b : CefBrowser)
    (w : BrowserWindow) (t : String)
    (hw : GetBrowserWindow s.browserWindows b.GetWindowHandle = some w)
    (hpopup : w.IsPopup = true) (hmeta : r.IsUsingMetaTitle w = true)
    (haddr : r.listen_on_0 = "") :
    OnTitleChange r s b t =
      [titleChangeLog t,
        Effect.SetTitle w.windowHandle
          (if r.main_window_title = "" then r.executableName else r.main_window_title)] := by
  have hpre : r.listen_on_0.data <+: t.data := by
    rw [haddr]
    exact List.nil_prefix
  rw [OnTitleChange_meta r s b w t hw hpopup hmeta, if_pos (Or.inr hpre)]
  rfl

/-- C7, on concrete titles for the popup window of handle 20 with the server at
`127.0.0.1`: the title the engine makes up from the URL is replaced by the
main-window title, a title of the page is used as it is, and a window that does
not mirror the page title gets its configured title again. -/
theorem C7_title_change_witness :
    OnTitleChange ⟨"127.0.0.1", "PHP Desktop", "phpdesktop-chrome", fun _ => true, rfl, rfl⟩
        ⟨fun k => if k = 20 then some ⟨20, true, some (CefBrowser.mk 2 20)⟩ else none,
          [CefBrowser.mk 2 20], false⟩
        (CefBrowser.mk 2 20) "127.0.0.1:54007/index.php"
      = [titleChangeLog "127.0.0.1:54007/index.php", Effect.SetTitle 20 "PHP Desktop"] ∧
    OnTitleChange ⟨"127.0.0.1", "PHP Desktop", "phpdesktop-chrome", fun _ => true, rfl, rfl⟩
        ⟨fun k => if k = 20 then some ⟨20, true, some (CefBrowser.mk 2 20)⟩ else none,
          [CefBrowser.mk 2 20], false⟩
        (CefBrowser.mk 2 20) "Invoice 7"
      = [titleChangeLog "Invoice 7", Effect.SetTitle 20 "Invoice 7"] ∧
    OnTitleChange ⟨"127.0.0.1", "PHP Desktop", "phpdesktop-chrome", fun _ => false, rfl, rfl⟩
        ⟨fun k => if k = 20 then some ⟨20, true, some (CefBrowser.mk 2 20)⟩ else none,
          [CefBrowser.mk 2 20], false⟩
        (CefBrowser.mk 2 20) "Invoice 7"
      = [titleChangeLog "Invoice 7", Effect.SetTitleFromSettings 20] :=
  ⟨(C7_title_change ⟨"127.0.0.1", "PHP Desktop", "phpdesktop-chrome", fun _ => true, rfl, rfl⟩
      ⟨fun k => if k = 20 then some ⟨20, true, some (CefBrowser.mk 2 20)⟩ else none,
        [CefBrowser.mk 2 20], false⟩
      (CefBrowser.mk 2 20) ⟨20, true, some (CefBrowser.mk 2 20)⟩ "127.0.0.1:54007/index.php"
      rfl rfl).1 rfl (Or.inr (by decide)),
   ((C7_title_change ⟨"127.0.0.1", "PHP Desktop", "phpdesktop-chrome", fun _ => true, rfl, rfl⟩
      ⟨fun k => if k = 20 then some ⟨20, true, some (CefBrowser.mk 2 20)⟩ else none,
        [CefBrowser.mk 2 20], false⟩
      (CefBrowser.mk 2 20) ⟨20, true, some (CefBrowser.mk 2 20)⟩ "Invoice 7"
      rfl rfl).2.1 rfl (by decide)).2.2 (by decide),
   (C7_title_change ⟨"127.0.0.1", "PHP Desktop", "phpdesktop-chrome", fun _ => false, rfl, rfl⟩
      ⟨fun k => if k = 20 then some ⟨20, true, some (CefBrowser.mk 2 20)⟩ else none,
        [CefBrowser.mk 2 20], false⟩
      (CefBrowser.mk 2 20) ⟨20, true, some (CefBrowser.mk 2 20)⟩ "Invoice 7"
      rfl rfl).2.2 rfl⟩

/-- C10, on a concrete title: with an empty server address and an empty
main-window title, the page title `Invoice 7` of a mirroring popup window is
replaced by the name of the executable. -/
theorem C10_empty_address_hides_page_title_witness :
    OnTitleChange ⟨"", "", "phpdesktop-chrome", fun _ => true, rfl, rfl⟩
        ⟨fun k => if k = 20 then some ⟨20, true, some (CefBrowser.mk 2 20)⟩ else none,
          [CefBrowser.mk 2 20], false⟩
        (CefBrowser.mk 2 20) "Invoice 7"
      = [titleChangeLog "Invoice 7", Effect.SetTitle 20 "phpdesktop-chrome"] :=
  C10_empty_address_hides_page_title ⟨"", "", "phpdesktop-chrome", fun _ => true, rfl, rfl⟩
    ⟨fun k => if k = 20 then some ⟨20, true, some (CefBrowser.mk 2 20)⟩ else none,
      [CefBrowser.mk 2 20], false⟩
    (CefBrowser.mk 2 20) ⟨20, true, some (CefBrowser.mk 2 20)⟩ "Invoice 7" rfl rfl rfl rfl

end PhpDesktop
